import Mathlib

/-!
Verification development for the DieCare backend's notification core:
the transactional task-creation handler (`src/routes/tasks.js`,
`router.post('/')`) and the notification ledger routes
(`src/routes/notifications.js`: list, mark-as-read, clear).

The relational rows and the handlers are shallowly embedded: a database
is the triple of its `parts`, `quality_tasks` and `notifications` tables,
a handler is a pure function from a database and a request to an outcome
(HTTP-level result, the committed database after the request, the trace of
transaction steps and socket emissions, and the uploaded files it deleted).
Roles and the sentinel "all" are strings, as in the JavaScript source.
-/

namespace DieCare

/-- Row of the `parts` table, the columns read by the task handler
(`SELECT id, part_name, company_name, sap_code FROM parts`). -/
structure Part where
  id : Nat
  part_name : String
  company_name : String
  sap_code : String
  deriving DecidableEq

/-- Row of the `quality_tasks` table as returned by the INSERT
(`RETURNING id, part_id, location, comments, image_urls, created_at`). -/
structure Task where
  id : Nat
  part_id : Nat
  location : String
  comments : Option String
  image_urls : List String
  created_at : Nat
  deriving DecidableEq

/-- Row of the `notifications` table
(`id, task_id, part_name, company_name, sap_code, location, comments,
recipient_role, read, created_at`). -/
structure Notification where
  id : Nat
  task_id : Nat
  part_name : String
  company_name : String
  sap_code : String
  location : String
  comments : Option String
  recipient_role : String
  read : Bool
  created_at : Nat
  deriving DecidableEq

/-- Payload object passed to `req.io.to(room).emit(event, {...})` in the
task-creation loop. It carries `id: task.id` (the source comments that the
actual notification id "would be better"); there is no notification-id
field in the emitted object. -/
structure EmitPayload where
  id : Nat
  task_id : Nat
  part_name : String
  company_name : String
  sap_code : String
  location : String
  comments : Option String
  recipient_role : String
  read : Bool
  created_at : Nat
  deriving DecidableEq

/-- One socket emission: `req.io.to(room).emit(event, payload)`. -/
structure EmitEvent where
  room : String
  event : String
  payload : EmitPayload
  deriving DecidableEq

/-- Committed database state: the three tables touched by the notification
core, plus the id sequences for the two inserting tables. -/
structure DB where
  parts : List Part
  quality_tasks : List Task
  notifications : List Notification
  nextTaskId : Nat
  nextNotificationId : Nat
  deriving DecidableEq

/-- Step of the task-creation handler's observable trace: the transaction
bracket (`BEGIN` / `COMMIT` / `ROLLBACK`), the two kinds of INSERT, and
socket emissions, in program order. -/
inductive TraceStep where
  | beginTxn
  | insertTask (t : Task)
  | insertNotification (n : Notification)
  | emit (e : EmitEvent)
  | commit
  | rollback
  deriving DecidableEq

/-- Body of the task-creation request (`req.body` fields destructured by
the handler, with the multer upload paths in `files`). A missing field and
an empty string are both falsy to the JavaScript guard `!partName`, so an
absent field is modelled as `""`. -/
structure CreateTaskRequest where
  partName : String
  companyName : String
  sapCode : String
  location : String
  comments : String
  files : List String
  deriving DecidableEq

/-- HTTP-level result of the task-creation handler: the 400 validation
response, the 201 success response (carrying the task row and the resolved
part), or the 500 response produced by the catch block, tagged with the
message of the error that was thrown (the response body itself is the
generic `'Server error while creating task.'`). -/
inductive CreateResult where
  | validationFailed
  | success (task : Task) (part : Part)
  | serverError (msg : String)
  deriving DecidableEq

def CreateResult.isSuccess : CreateResult → Bool
  | .success _ _ => true
  | _ => false

/-- HTTP status code the handler responds with for each result. -/
def httpStatus : CreateResult → Nat
  | .validationFailed => 400
  | .success _ _ => 201
  | .serverError _ => 500

/-- Full outcome of one task-creation request: result, committed database,
trace, and the uploaded files the handler unlinked. -/
structure CreateOutcome where
  result : CreateResult
  db : DB
  trace : List TraceStep
  deletedFiles : List String
  deriving DecidableEq

/-- Fixed fan-out role list `const roles = ['HOD', 'PDC', 'Employee']`. -/
def TARGET_ROLES : List String := ["HOD", "PDC", "Employee"]

/-- Part lookup `SELECT ... FROM parts WHERE sap_code = $1` (first row). -/
def findPartBySapCode (db : DB) (code : String) : Option Part :=
  db.parts.find? (fun p => p.sap_code == code)

/-- Notification row inserted for one role in the fan-out loop
(`INSERT INTO notifications ... VALUES ($1,...,$7, FALSE, CURRENT_TIMESTAMP)`). -/
def mkNotification (nid : Nat) (task : Task) (part : Part) (role : String)
    (now : Nat) : Notification :=
  { id := nid, task_id := task.id, part_name := part.part_name,
    company_name := part.company_name, sap_code := part.sap_code,
    location := task.location, comments := task.comments,
    recipient_role := role, read := false, created_at := now }

/-- Socket emission for one role in the fan-out loop:
`req.io.to('role:' + role).emit('notification:' + role, {id: task.id, ...})`. -/
def mkEmitEvent (task : Task) (part : Part) (role : String) (now : Nat) :
    EmitEvent :=
  { room := "role:" ++ role, event := "notification:" ++ role,
    payload := { id := task.id, task_id := task.id,
                 part_name := part.part_name, company_name := part.company_name,
                 sap_code := part.sap_code, location := task.location,
                 comments := task.comments, recipient_role := role,
                 read := false, created_at := now } }

/-- Result of the per-role fan-out loop: the notification rows inserted into
the open transaction, the trace steps performed, the next notification id,
and the role whose emission threw (if any), at which point the loop aborts. -/
structure LoopResult where
  inserted : List Notification
  steps : List TraceStep
  nextId : Nat
  failedRole : Option String
  deriving DecidableEq

/-- The `for (const role of roles)` body of the handler: insert one
notification row, then emit to the role's room. `emitFail` models the
socket layer: `emitFail role = true` means the `emit` call for that role
throws. The insert precedes the emit, so a throwing emit leaves that
role's row in the (about to be rolled back) transaction. -/
def notifyLoop (emitFail : String → Bool) (part : Part) (task : Task)
    (now : Nat) : List String → Nat → LoopResult
  | [], nid => { inserted := [], steps := [], nextId := nid, failedRole := none }
  | role :: rest, nid =>
    let n := mkNotification nid task part role now
    if emitFail role then
      { inserted := [n], steps := [TraceStep.insertNotification n],
        nextId := nid + 1, failedRole := some role }
    else
      let e := mkEmitEvent task part role now
      let r := notifyLoop emitFail part task now rest (nid + 1)
      { inserted := n :: r.inserted,
        steps := TraceStep.insertNotification n :: TraceStep.emit e :: r.steps,
        nextId := r.nextId, failedRole := r.failedRole }

/-- Task row built by the handler's INSERT:
`INSERT INTO quality_tasks (part_id, location, comments, image_urls,
created_at) VALUES ($1, $2, $3, $4, CURRENT_TIMESTAMP)` with values
`[part.id, location, comments || null, imageUrls]`. -/
def txnTask (db : DB) (req : CreateTaskRequest) (now : Nat) (part : Part) :
    Task :=
  { id := db.nextTaskId, part_id := part.id, location := req.location,
    comments := if req.comments.isEmpty then none else some req.comments,
    image_urls := req.files, created_at := now }

/-- The fan-out loop of one request, run on the freshly inserted task row
over the fixed role list. -/
def txnLoop (db : DB) (req : CreateTaskRequest) (emitFail : String → Bool)
    (now : Nat) (part : Part) : LoopResult :=
  notifyLoop emitFail part (txnTask db req now part) now TARGET_ROLES
    db.nextNotificationId

/-- Transactional tail of the handler once the part has resolved: insert
the task row, run the fan-out loop; a throw inside the loop reaches the
catch block (ROLLBACK, unlink uploads, respond 500), otherwise COMMIT and
respond 201 with the task and the resolved part fields. -/
def createTaskWithPart (db : DB) (req : CreateTaskRequest)
    (emitFail : String → Bool) (now : Nat) (part : Part) : CreateOutcome :=
  if (txnLoop db req emitFail now part).failedRole.isSome then
    { result := .serverError "Realtime emit failed.",
      db := db,
      trace := [.beginTxn, .insertTask (txnTask db req now part)] ++
        (txnLoop db req emitFail now part).steps ++ [.rollback],
      deletedFiles := req.files }
  else
    { result := .success (txnTask db req now part) part,
      db := { db with
                quality_tasks := db.quality_tasks ++ [txnTask db req now part],
                notifications := db.notifications ++
                  (txnLoop db req emitFail now part).inserted,
                nextTaskId := db.nextTaskId + 1,
                nextNotificationId := (txnLoop db req emitFail now part).nextId },
      trace := [.beginTxn, .insertTask (txnTask db req now part)] ++
        (txnLoop db req emitFail now part).steps ++ [.commit],
      deletedFiles := [] }

/-- The task-creation handler `router.post('/')` of `src/routes/tasks.js`:
validate required fields (unlinking uploads on failure), BEGIN, resolve the
part by `sap_code` (throw `'Part with the given SAP Code not found.'` if
absent, which the catch block turns into ROLLBACK + unlink + 500), then the
transactional tail. `now` stands for `CURRENT_TIMESTAMP` / `new Date()` of
this request. -/
def createTask (db : DB) (req : CreateTaskRequest) (emitFail : String → Bool)
    (now : Nat) : CreateOutcome :=
  if req.partName.isEmpty || req.sapCode.isEmpty || req.location.isEmpty then
    { result := .validationFailed, db := db, trace := [],
      deletedFiles := req.files }
  else
    match findPartBySapCode db req.sapCode with
    | none =>
      { result := .serverError "Part with the given SAP Code not found.",
        db := db, trace := [.beginTxn, .rollback], deletedFiles := req.files }
    | some part => createTaskWithPart db req emitFail now part

/-- Emissions contained in a trace, in order. -/
def emitsOf (tr : List TraceStep) : List EmitEvent :=
  tr.filterMap (fun s => match s with | .emit e => some e | _ => none)

def notCommit (s : TraceStep) : Bool :=
  decide (s ≠ TraceStep.commit)

/-- Emissions that happen strictly before the COMMIT step (all of them,
when the trace has no COMMIT). -/
def emitsBeforeCommit (tr : List TraceStep) : List EmitEvent :=
  emitsOf (tr.takeWhile notCommit)

/-- Emissions at or after the COMMIT step. -/
def emitsAfterCommit (tr : List TraceStep) : List EmitEvent :=
  emitsOf (tr.dropWhile notCommit)

/-- Visibility predicate used uniformly by the three notification routes:
`recipient_role = $1 OR recipient_role = 'all'`. -/
def visibleTo (role : String) (n : Notification) : Bool :=
  n.recipient_role == role || n.recipient_role == "all"

/-- The `GET /api/notifications` route: `SELECT ... FROM notifications
WHERE recipient_role = $1 OR recipient_role = 'all' ORDER BY created_at
DESC`. -/
def listForRole (db : DB) (role : String) : List Notification :=
  (db.notifications.filter (visibleTo role)).mergeSort
    (fun a b => decide (b.created_at ≤ a.created_at))

/-- Row predicate of the mark-as-read UPDATE:
`WHERE id = $1 AND (recipient_role = $2 OR recipient_role = 'all')`. -/
def matchesForRead (nid : Nat) (role : String) (n : Notification) : Bool :=
  n.id == nid && visibleTo role n

def setRead (n : Notification) : Notification := { n with read := true }

/-- Effect of the mark-as-read UPDATE on one stored row: set `read = TRUE`
when the WHERE clause matches, leave the row alone otherwise. -/
def applyRead (nid : Nat) (role : String) (n : Notification) : Notification :=
  if matchesForRead nid role n then setRead n else n

/-- Outcome of `PATCH /api/notifications/:id/read`: HTTP status (200 or
404), the returned row if any, and the database after the UPDATE. -/
structure MarkReadOutcome where
  status : Nat
  notification : Option Notification
  db : DB
  deriving DecidableEq

/-- The mark-as-read route: `UPDATE notifications SET read = TRUE WHERE id
= $1 AND (recipient_role = $2 OR recipient_role = 'all') RETURNING *`;
404 `'Notification not found or not accessible'` when no row matched,
otherwise 200 with `rows[0]`. -/
def markRead (db : DB) (nid : Nat) (role : String) : MarkReadOutcome :=
  let rows := (db.notifications.filter (matchesForRead nid role)).map setRead
  { status := if rows.isEmpty then 404 else 200,
    notification := rows.head?,
    db := { db with
              notifications := db.notifications.map (applyRead nid role) } }

/-- JSON body of the clear route's success response:
`res.json({ success: true, message: 'Notifications cleared' })`. -/
structure ClearResponse where
  success : Bool
  message : String
  deriving DecidableEq

structure ClearOutcome where
  response : ClearResponse
  db : DB
  deriving DecidableEq

/-- The `DELETE /api/notifications/clear` route: `DELETE FROM notifications
WHERE recipient_role = $1 OR recipient_role = 'all'`, then a constant
success body (the DELETE's row count is not read and not returned). -/
def clearForRole (db : DB) (role : String) : ClearOutcome :=
  { response := { success := true, message := "Notifications cleared" },
    db := { db with
              notifications := db.notifications.filter
                (fun n => !(visibleTo role n)) } }

/-- Concrete part used by the test scenarios of the specification
(`{sapCode:"X1", name:"Bolt"}`). -/
def part0 : Part :=
  { id := 1, part_name := "Bolt", company_name := "Acme", sap_code := "X1" }

/-- Concrete database with the single registered part `X1`. -/
def db0 : DB :=
  { parts := [part0], quality_tasks := [], notifications := [],
    nextTaskId := 10, nextNotificationId := 20 }

/-- Concrete creation request for part `X1` at `location="Line3"` with one
uploaded image. -/
def req0 : CreateTaskRequest :=
  { partName := "Bolt", companyName := "Acme", sapCode := "X1",
    location := "Line3", comments := "", files := ["Uploads/images/img1.png"] }

/-- Socket layer on which every emit succeeds. -/
def noFail : String → Bool := fun _ => false

/-- Socket layer on which the emit to the HOD room throws. -/
def failHOD : String → Bool := fun r => r == "HOD"

/-- Task row the handler inserts for `db0` / `req0` at time 5. -/
def task0 : Task :=
  { id := 10, part_id := 1, location := "Line3", comments := none,
    image_urls := ["Uploads/images/img1.png"], created_at := 5 }

/-- Creation request whose `sapCode` resolves to no registered part
(the specification's `sapCode="NOPE"` scenario). -/
def reqNope : CreateTaskRequest := { req0 with sapCode := "NOPE" }

/-- Creation request with `partName` empty but `sapCode` and `location`
present and non-empty. -/
def reqNoName : CreateTaskRequest := { req0 with partName := "" }

/-- Ledger fixture: a notification addressed to HOD. -/
def nHOD : Notification :=
  { id := 1, task_id := 10, part_name := "Bolt", company_name := "Acme",
    sap_code := "X1", location := "Line3", comments := none,
    recipient_role := "HOD", read := false, created_at := 3 }

/-- Ledger fixture: a notification addressed to the sentinel role "all". -/
def nAll : Notification :=
  { id := 2, task_id := 10, part_name := "Bolt", company_name := "Acme",
    sap_code := "X1", location := "Line3", comments := none,
    recipient_role := "all", read := false, created_at := 7 }

/-- Ledger fixture: a notification addressed to PDC. -/
def nPDC : Notification :=
  { id := 3, task_id := 10, part_name := "Bolt", company_name := "Acme",
    sap_code := "X1", location := "Line3", comments := none,
    recipient_role := "PDC", read := false, created_at := 9 }

/-- Concrete ledger database holding the three fixture notifications. -/
def dbLedger : DB :=
  { parts := [part0], quality_tasks := [], notifications := [nHOD, nAll, nPDC],
    nextTaskId := 11, nextNotificationId := 4 }

/-- Expected fan-out delta written from the specification: one notification
row per role of `roles`, with consecutive ids starting at `nid`, each a
denormalized copy of the part/task fields with `read = false`. Used to
compare the handler's actual inserts against the spec's description. -/
def expectedFanout (part : Part) (task : Task) (now : Nat) :
    List String → Nat → List Notification
  | [], _ => []
  | role :: rest, nid =>
    mkNotification nid task part role now :: expectedFanout part task now rest (nid + 1)

/-! Helper lemmas about the fan-out loop and traces. -/

theorem emitsOf_append (a b : List TraceStep) :
    emitsOf (a ++ b) = emitsOf a ++ emitsOf b :=
  List.filterMap_append a b _

theorem notifyLoop_inserted_of_ok (ef : String → Bool) (p : Part) (t : Task)
    (now : Nat) :
    ∀ (roles : List String) (nid : Nat),
      (notifyLoop ef p t now roles nid).failedRole = none →
      (notifyLoop ef p t now roles nid).inserted = expectedFanout p t now roles nid
  | [], nid, _ => rfl
  | role :: rest, nid, h => by
    by_cases hf : ef role = true
    · simp [notifyLoop, hf] at h
    · simp only [notifyLoop, hf, Bool.false_eq_true, if_false, expectedFanout] at h ⊢
      rw [notifyLoop_inserted_of_ok ef p t now rest (nid + 1) h]

theorem notifyLoop_commit_not_mem (ef : String → Bool) (p : Part) (t : Task)
    (now : Nat) :
    ∀ (roles : List String) (nid : Nat),
      TraceStep.commit ∉ (notifyLoop ef p t now roles nid).steps
  | [], nid => by simp [notifyLoop]
  | role :: rest, nid => by
    by_cases hf : ef role = true
    · simp [notifyLoop, hf]
    · simp only [notifyLoop, hf, Bool.false_eq_true, if_false, List.mem_cons]
      push_neg
      exact ⟨by simp, by simp, notifyLoop_commit_not_mem ef p t now rest (nid + 1)⟩

theorem notifyLoop_emits_of_ok (ef : String → Bool) (p : Part) (t : Task)
    (now : Nat) :
    ∀ (roles : List String) (nid : Nat),
      (notifyLoop ef p t now roles nid).failedRole = none →
      emitsOf (notifyLoop ef p t now roles nid).steps =
        roles.map (fun role => mkEmitEvent t p role now)
  | [], nid, _ => rfl
  | role :: rest, nid, h => by
    by_cases hf : ef role = true
    · simp [notifyLoop, hf] at h
    · simp only [notifyLoop, hf, Bool.false_eq_true, if_false, List.map_cons] at h ⊢
      simp only [emitsOf, List.filterMap_cons]
      rw [← emitsOf.eq_def, notifyLoop_emits_of_ok ef p t now rest (nid + 1) h]

theorem expectedFanout_map_recipient (p : Part) (t : Task) (now : Nat) :
    ∀ (roles : List String) (nid : Nat),
      (expectedFanout p t now roles nid).map Notification.recipient_role = roles
  | [], _ => rfl
  | role :: rest, nid => by
    simp only [expectedFanout, List.map_cons, mkNotification]
    rw [expectedFanout_map_recipient p t now rest (nid + 1)]

theorem expectedFanout_mem (p : Part) (t : Task) (now : Nat) :
    ∀ (roles : List String) (nid : Nat) (n : Notification),
      n ∈ expectedFanout p t now roles nid → n.read = false ∧ n.task_id = t.id
  | [], _, n, h => by simp [expectedFanout] at h
  | role :: rest, nid, n, h => by
    simp only [expectedFanout, List.mem_cons] at h
    rcases h with h | h
    · subst h; exact ⟨rfl, rfl⟩
    · exact expectedFanout_mem p t now rest (nid + 1) n h

theorem takeWhile_notCommit_append (steps : List TraceStep)
    (h : TraceStep.commit ∉ steps) :
    ((steps ++ [TraceStep.commit]).takeWhile notCommit) = steps := by
  induction steps with
  | nil => simp [notCommit, List.takeWhile]
  | cons a l ih =>
    simp only [List.mem_cons, not_or] at h
    simp only [List.cons_append, List.takeWhile_cons]
    rw [if_pos (by simp [notCommit, Ne.symm, h.1]), ih h.2]

theorem dropWhile_notCommit_append (steps : List TraceStep)
    (h : TraceStep.commit ∉ steps) :
    ((steps ++ [TraceStep.commit]).dropWhile notCommit) = [TraceStep.commit] := by
  induction steps with
  | nil => simp [notCommit, List.dropWhile]
  | cons a l ih =>
    simp only [List.mem_cons, not_or] at h
    simp only [List.cons_append, List.dropWhile_cons]
    rw [if_pos (by simp [notCommit, Ne.symm, h.1])]
    exact ih h.2

theorem emitsOf_pre (t : Task) :
    emitsOf [TraceStep.beginTxn, TraceStep.insertTask t] = [] := rfl

theorem emitsOf_commit : emitsOf [TraceStep.commit] = [] := rfl

theorem emitsOf_rollback : emitsOf [TraceStep.rollback] = [] := rfl

theorem matchesForRead_setRead (nid : Nat) (role : String) (n : Notification) :
    matchesForRead nid role (setRead n) = matchesForRead nid role n := rfl

theorem matchesForRead_applyRead (nid : Nat) (role : String) (n : Notification) :
    matchesForRead nid role (applyRead nid role n) = matchesForRead nid role n := by
  unfold applyRead
  by_cases h : matchesForRead nid role n = true
  · rw [if_pos h, matchesForRead_setRead, h]
  · rw [if_neg h]

theorem setRead_setRead (n : Notification) : setRead (setRead n) = setRead n := rfl

theorem applyRead_applyRead (nid : Nat) (role : String) (n : Notification) :
    applyRead nid role (applyRead nid role n) = applyRead nid role n := by
  unfold applyRead
  by_cases h : matchesForRead nid role n = true
  · simp [h, matchesForRead_setRead, setRead_setRead]
  · simp [h]

theorem filter_map_applyRead (nid : Nat) (role : String) :
    ∀ l : List Notification,
      (l.map (applyRead nid role)).filter (matchesForRead nid role) =
        (l.filter (matchesForRead nid role)).map setRead
  | [] => rfl
  | x :: l => by
    by_cases h : matchesForRead nid role x = true
    · simp [applyRead, h, matchesForRead_setRead,
        filter_map_applyRead nid role l]
    · simp [applyRead, h, filter_map_applyRead nid role l]

theorem map_applyRead_idem (nid : Nat) (role : String) (l : List Notification) :
    (l.map (applyRead nid role)).map (applyRead nid role) = l.map (applyRead nid role) := by
  rw [List.map_map]
  exact List.map_congr_left (fun a _ => applyRead_applyRead nid role a)

/-- Inversion principle for a successful task creation: the guard passed,
the part resolved, the fan-out loop ran all roles without an emit throw,
and the returned task/part are the inserted row and the resolved part. -/
theorem createTask_success_inv (db : DB) (req : CreateTaskRequest)
    (ef : String → Bool) (now : Nat) (t : Task) (p : Part)
    (h : (createTask db req ef now).result = CreateResult.success t p) :
    findPartBySapCode db req.sapCode = some p ∧
    t = txnTask db req now p ∧
    (txnLoop db req ef now p).failedRole = none ∧
    createTask db req ef now = createTaskWithPart db req ef now p := by
  unfold createTask at h
  split at h
  · simp at h
  · rename_i hguard
    cases hfind : findPartBySapCode db req.sapCode with
    | none => rw [hfind] at h; simp at h
    | some part =>
      have hout : createTask db req ef now = createTaskWithPart db req ef now part := by
        unfold createTask
        rw [if_neg hguard, hfind]
      have h2 : (createTaskWithPart db req ef now part).result =
          CreateResult.success t p := by rw [hfind] at h; exact h
      unfold createTaskWithPart at h2
      by_cases hfr : (txnLoop db req ef now part).failedRole.isSome = true
      · rw [if_pos hfr] at h2
        exact CreateResult.noConfusion h2
      · rw [if_neg hfr] at h2
        have h' : CreateResult.success (txnTask db req now part) part =
            CreateResult.success t p := h2
        obtain ⟨ht, hp⟩ := CreateResult.success.inj h'
        subst hp
        exact ⟨rfl, ht.symm, Option.not_isSome_iff_eq_none.mp hfr, hout⟩

/-- Branch equation: a failed validation guard short-circuits the handler. -/
theorem createTask_eq_validation (db : DB) (req : CreateTaskRequest)
    (ef : String → Bool) (now : Nat)
    (hguard : (req.partName.isEmpty || req.sapCode.isEmpty || req.location.isEmpty) = true) :
    createTask db req ef now =
      { result := .validationFailed, db := db, trace := [],
        deletedFiles := req.files } := by
  unfold createTask
  rw [if_pos hguard]

/-- Branch equation: an unresolvable `sap_code` throws, and the catch block
rolls back, unlinks the uploads and answers 500. -/
theorem createTask_eq_notFound (db : DB) (req : CreateTaskRequest)
    (ef : String → Bool) (now : Nat)
    (hguard : ¬(req.partName.isEmpty || req.sapCode.isEmpty || req.location.isEmpty) = true)
    (hfind : findPartBySapCode db req.sapCode = none) :
    createTask db req ef now =
      { result := .serverError "Part with the given SAP Code not found.",
        db := db, trace := [.beginTxn, .rollback], deletedFiles := req.files } := by
  unfold createTask
  rw [if_neg hguard, hfind]

/-- Branch equation: with the guard passed and the part resolved, the
handler runs its transactional tail. -/
theorem createTask_eq_withPart (db : DB) (req : CreateTaskRequest)
    (ef : String → Bool) (now : Nat) (part : Part)
    (hguard : ¬(req.partName.isEmpty || req.sapCode.isEmpty || req.location.isEmpty) = true)
    (hfind : findPartBySapCode db req.sapCode = some part) :
    createTask db req ef now = createTaskWithPart db req ef now part := by
  unfold createTask
  rw [if_neg hguard, hfind]

/-- Branch equation: a throwing emit aborts the transactional tail. -/
theorem createTaskWithPart_eq_fail (db : DB) (req : CreateTaskRequest)
    (ef : String → Bool) (now : Nat) (part : Part)
    (hfr : (txnLoop db req ef now part).failedRole.isSome = true) :
    createTaskWithPart db req ef now part =
      { result := .serverError "Realtime emit failed.",
        db := db,
        trace := [.beginTxn, .insertTask (txnTask db req now part)] ++
          (txnLoop db req ef now part).steps ++ [.rollback],
        deletedFiles := req.files } := by
  unfold createTaskWithPart
  rw [if_pos hfr]

/-- Branch equation: with every emit succeeding, the transactional tail
commits. -/
theorem createTaskWithPart_eq_ok (db : DB) (req : CreateTaskRequest)
    (ef : String → Bool) (now : Nat) (part : Part)
    (hfr : (txnLoop db req ef now part).failedRole = none) :
    createTaskWithPart db req ef now part =
      { result := .success (txnTask db req now part) part,
        db := { db with
                  quality_tasks := db.quality_tasks ++ [txnTask db req now part],
                  notifications := db.notifications ++
                    (txnLoop db req ef now part).inserted,
                  nextTaskId := db.nextTaskId + 1,
                  nextNotificationId := (txnLoop db req ef now part).nextId },
        trace := [.beginTxn, .insertTask (txnTask db req now part)] ++
          (txnLoop db req ef now part).steps ++ [.commit],
        deletedFiles := [] } := by
  unfold createTaskWithPart
  rw [if_neg (by rw [hfr]; exact Bool.false_ne_true)]

/-- Case split on the handler: either the request succeeded, or the
committed database is untouched, the uploads were unlinked, and COMMIT
never ran. -/
theorem createTask_cases (db : DB) (req : CreateTaskRequest)
    (ef : String → Bool) (now : Nat) :
    (createTask db req ef now).result.isSuccess = true ∨
    ((createTask db req ef now).db = db ∧
     (createTask db req ef now).deletedFiles = req.files ∧
     TraceStep.commit ∉ (createTask db req ef now).trace) := by
  by_cases hguard :
      (req.partName.isEmpty || req.sapCode.isEmpty || req.location.isEmpty) = true
  · rw [createTask_eq_validation db req ef now hguard]
    exact Or.inr ⟨rfl, rfl, List.not_mem_nil _⟩
  · cases hfind : findPartBySapCode db req.sapCode with
    | none =>
      rw [createTask_eq_notFound db req ef now hguard hfind]
      exact Or.inr ⟨rfl, rfl,
        (by decide : TraceStep.commit ∉ [TraceStep.beginTxn, TraceStep.rollback])⟩
    | some part =>
      rw [createTask_eq_withPart db req ef now part hguard hfind]
      by_cases hfr : (txnLoop db req ef now part).failedRole.isSome = true
      · rw [createTaskWithPart_eq_fail db req ef now part hfr]
        refine Or.inr ⟨rfl, rfl, ?_⟩
        intro hc
        simp only [List.mem_append, List.mem_cons, List.not_mem_nil] at hc
        rcases hc with ((hc | hc | hc) | hc) | (hc | hc)
        · exact TraceStep.noConfusion hc
        · exact TraceStep.noConfusion hc
        · exact hc
        · exact notifyLoop_commit_not_mem ef part (txnTask db req now part) now
            TARGET_ROLES db.nextNotificationId hc
        · exact TraceStep.noConfusion hc
        · exact hc
      · rw [createTaskWithPart_eq_ok db req ef now part
          (Option.not_isSome_iff_eq_none.mp hfr)]
        exact Or.inl rfl

/-! Claim theorems. -/

/-- C1: for every successful task creation the handler appends the created
Task row and exactly one Notification row per role of the fixed target set
`{HOD, PDC, Employee}` — never zero, never duplicated — each with
`read = false` and `task_id` equal to the created task's id; and on every
non-success outcome the committed database is completely unchanged, so the
Notification rows are all-or-nothing with the Task row. -/
theorem createTask_fanout_atomic (db : DB) (req : CreateTaskRequest)
    (ef : String → Bool) (now : Nat) :
    (∀ t p, (createTask db req ef now).result = CreateResult.success t p →
      (createTask db req ef now).db.quality_tasks = db.quality_tasks ++ [t] ∧
      (createTask db req ef now).db.notifications =
        db.notifications ++
          expectedFanout p t now TARGET_ROLES db.nextNotificationId ∧
      (expectedFanout p t now TARGET_ROLES db.nextNotificationId).map
        Notification.recipient_role = TARGET_ROLES ∧
      ∀ n ∈ expectedFanout p t now TARGET_ROLES db.nextNotificationId,
        n.read = false ∧ n.task_id = t.id) ∧
    ((createTask db req ef now).result.isSuccess = false →
      (createTask db req ef now).db = db) := by
  constructor
  · intro t p h
    obtain ⟨hfind, ht, hfr, hout⟩ := createTask_success_inv db req ef now t p h
    subst ht
    have hins : (txnLoop db req ef now p).inserted =
        expectedFanout p (txnTask db req now p) now TARGET_ROLES
          db.nextNotificationId :=
      notifyLoop_inserted_of_ok ef p (txnTask db req now p) now TARGET_ROLES
        db.nextNotificationId hfr
    rw [hout, createTaskWithPart_eq_ok db req ef now p hfr]
    refine ⟨rfl, ?_,
      expectedFanout_map_recipient p _ now TARGET_ROLES db.nextNotificationId,
      fun n hn =>
        expectedFanout_mem p _ now TARGET_ROLES db.nextNotificationId n hn⟩
    show db.notifications ++ (txnLoop db req ef now p).inserted = _
    rw [hins]
  · intro hns
    rcases createTask_cases db req ef now with hs | ⟨hdb, _, _⟩
    · exact absurd (hs.symm.trans hns) (by decide)
    · exact hdb

/-- Witness for C1: the specification's scenario (part `X1`, location
`Line3`) creates the task and exactly the three fan-out rows. -/
theorem createTask_fanout_atomic_witness :
    (createTask db0 req0 noFail 5).db.quality_tasks =
      db0.quality_tasks ++ [task0] ∧
    (createTask db0 req0 noFail 5).db.notifications =
      db0.notifications ++
        expectedFanout part0 task0 5 TARGET_ROLES db0.nextNotificationId :=
  ⟨((createTask_fanout_atomic db0 req0 noFail 5).1 task0 part0 (by decide)).1,
   ((createTask_fanout_atomic db0 req0 noFail 5).1 task0 part0 (by decide)).2.1⟩

/-- C2 counterexample: in the concrete successful creation of a task for
part `X1`, all three realtime events are published strictly before the
COMMIT step of the transaction, so "no realtime event is published before
the atomic unit of work has committed" fails on the code. -/
theorem createTask_publish_after_commit_cex :
    (createTask db0 req0 noFail 5).result = CreateResult.success task0 part0 ∧
    (emitsBeforeCommit (createTask db0 req0 noFail 5).trace).length = 3 := by
  decide

/-- C2 (amended): in every successful task-creation execution exactly one
realtime event is published per role of the target set, in role order, but
the events are published inside the open transaction — each after its
Notification INSERT and strictly before the COMMIT; no event is published
at or after the commit point. -/
theorem createTask_emits_inside_transaction (db : DB)
    (req : CreateTaskRequest) (ef : String → Bool) (now : Nat) :
    ∀ t p, (createTask db req ef now).result = CreateResult.success t p →
      (emitsOf (createTask db req ef now).trace).map
        (fun e => e.payload.recipient_role) = TARGET_ROLES ∧
      emitsBeforeCommit (createTask db req ef now).trace =
        emitsOf (createTask db req ef now).trace ∧
      emitsAfterCommit (createTask db req ef now).trace = [] := by
  intro t p h
  obtain ⟨hfind, ht, hfr, hout⟩ := createTask_success_inv db req ef now t p h
  subst ht
  rw [hout, createTaskWithPart_eq_ok db req ef now p hfr]
  have hemits : emitsOf (txnLoop db req ef now p).steps =
      TARGET_ROLES.map
        (fun role => mkEmitEvent (txnTask db req now p) p role now) :=
    notifyLoop_emits_of_ok ef p (txnTask db req now p) now TARGET_ROLES
      db.nextNotificationId hfr
  have hnc : TraceStep.commit ∉ (txnLoop db req ef now p).steps :=
    notifyLoop_commit_not_mem ef p (txnTask db req now p) now TARGET_ROLES
      db.nextNotificationId
  have hnc2 : TraceStep.commit ∉
      [TraceStep.beginTxn, TraceStep.insertTask (txnTask db req now p)] ++
        (txnLoop db req ef now p).steps := by
    intro hc
    rcases List.mem_append.mp hc with hc | hc
    · rcases List.mem_cons.mp hc with hc | hc
      · exact TraceStep.noConfusion hc
      · rcases List.mem_cons.mp hc with hc | hc
        · exact TraceStep.noConfusion hc
        · exact List.not_mem_nil _ hc
    · exact hnc hc
  have e1 : emitsOf
      (([TraceStep.beginTxn, TraceStep.insertTask (txnTask db req now p)] ++
        (txnLoop db req ef now p).steps) ++ [TraceStep.commit]) =
      emitsOf (txnLoop db req ef now p).steps := by
    rw [emitsOf_append, emitsOf_append, emitsOf_pre, emitsOf_commit,
      List.nil_append, List.append_nil]
  have e2 : emitsOf
      ([TraceStep.beginTxn, TraceStep.insertTask (txnTask db req now p)] ++
        (txnLoop db req ef now p).steps) =
      emitsOf (txnLoop db req ef now p).steps := by
    rw [emitsOf_append, emitsOf_pre, List.nil_append]
  refine ⟨?_, ?_, ?_⟩
  · show (emitsOf
      (([TraceStep.beginTxn, TraceStep.insertTask (txnTask db req now p)] ++
        (txnLoop db req ef now p).steps) ++ [TraceStep.commit])).map
      (fun e => e.payload.recipient_role) = TARGET_ROLES
    rw [e1, hemits, List.map_map]
    rfl
  · show emitsBeforeCommit
      (([TraceStep.beginTxn, TraceStep.insertTask (txnTask db req now p)] ++
        (txnLoop db req ef now p).steps) ++ [TraceStep.commit]) = _
    unfold emitsBeforeCommit
    rw [takeWhile_notCommit_append _ hnc2, e2, e1]
  · show emitsAfterCommit
      (([TraceStep.beginTxn, TraceStep.insertTask (txnTask db req now p)] ++
        (txnLoop db req ef now p).steps) ++ [TraceStep.commit]) = []
    unfold emitsAfterCommit
    rw [dropWhile_notCommit_append _ hnc2, emitsOf_commit]

/-- Witness for the amended C2 at the concrete scenario. -/
theorem createTask_emits_inside_transaction_witness :
    (emitsOf (createTask db0 req0 noFail 5).trace).map
      (fun e => e.payload.recipient_role) = TARGET_ROLES ∧
    emitsAfterCommit (createTask db0 req0 noFail 5).trace = [] :=
  ⟨(createTask_emits_inside_transaction db0 req0 noFail 5 task0 part0
      (by decide)).1,
   (createTask_emits_inside_transaction db0 req0 noFail 5 task0 part0
      (by decide)).2.2⟩

/-- C3: when the validation guard passes but the `sapCode` resolves to no
registered part, the handler fails with the part-not-found error (reported
through the catch block as HTTP 500), the committed database is unchanged
(zero Task and zero Notification rows), no realtime event is emitted, and
the uploaded artifacts are deleted. -/
theorem createTask_part_not_found (db : DB) (req : CreateTaskRequest)
    (ef : String → Bool) (now : Nat)
    (hval : (req.partName.isEmpty || req.sapCode.isEmpty ||
      req.location.isEmpty) = false)
    (hfind : findPartBySapCode db req.sapCode = none) :
    (createTask db req ef now).result =
      CreateResult.serverError "Part with the given SAP Code not found." ∧
    httpStatus (createTask db req ef now).result = 500 ∧
    (createTask db req ef now).db = db ∧
    emitsOf (createTask db req ef now).trace = [] ∧
    (createTask db req ef now).deletedFiles = req.files := by
  rw [createTask_eq_notFound db req ef now
    (by rw [hval]; exact Bool.false_ne_true) hfind]
  exact ⟨rfl, rfl, rfl, rfl, rfl⟩

/-- Witness for C3: the specification's `sapCode="NOPE"` scenario. -/
theorem createTask_part_not_found_witness :
    (createTask db0 reqNope noFail 5).result =
      CreateResult.serverError "Part with the given SAP Code not found." ∧
    (createTask db0 reqNope noFail 5).db = db0 ∧
    emitsOf (createTask db0 reqNope noFail 5).trace = [] ∧
    (createTask db0 reqNope noFail 5).deletedFiles = reqNope.files :=
  ⟨(createTask_part_not_found db0 reqNope noFail 5 (by decide) (by decide)).1,
   (createTask_part_not_found db0 reqNope noFail 5 (by decide)
      (by decide)).2.2.1,
   (createTask_part_not_found db0 reqNope noFail 5 (by decide)
      (by decide)).2.2.2.1,
   (createTask_part_not_found db0 reqNope noFail 5 (by decide)
      (by decide)).2.2.2.2⟩

/-- C4 counterexample: on the same request and database, a throwing emit
for the HOD room turns the HTTP result from 201-success into a 500 error
and rolls the whole transaction back, so a realtime failure does affect the
HTTP-level result on the code. -/
theorem createTask_realtime_nonfatal_cex :
    (createTask db0 req0 failHOD 5).result =
      CreateResult.serverError "Realtime emit failed." ∧
    httpStatus (createTask db0 req0 failHOD 5).result = 500 ∧
    (createTask db0 req0 failHOD 5).db = db0 ∧
    (createTask db0 req0 noFail 5).result =
      CreateResult.success task0 part0 ∧
    httpStatus (createTask db0 req0 noFail 5).result = 201 := by
  decide

/-- C4 (amended): a realtime publish failure is fatal to the request — it
throws inside the open transaction, so the handler rolls back (the
committed database is unchanged), unlinks the uploads and answers HTTP 500;
conversely a publish failure can never undo an already-committed state,
because the COMMIT step is reached only when every publish succeeded. -/
theorem createTask_realtime_failure_fatal (db : DB) (req : CreateTaskRequest)
    (ef : String → Bool) (now : Nat) :
    ((createTask db req ef now).result =
        CreateResult.serverError "Realtime emit failed." →
      (createTask db req ef now).db = db ∧
      httpStatus (createTask db req ef now).result = 500 ∧
      (createTask db req ef now).deletedFiles = req.files) ∧
    (TraceStep.commit ∈ (createTask db req ef now).trace →
      (createTask db req ef now).result.isSuccess = true) := by
  rcases createTask_cases db req ef now with hs | ⟨hdb, hdel, hnc⟩
  · constructor
    · intro h
      rw [h] at hs
      exact absurd hs (by decide)
    · intro _
      exact hs
  · constructor
    · intro h
      exact ⟨hdb, by rw [h]; rfl, hdel⟩
    · intro hc
      exact absurd hc hnc

/-- Witness for the amended C4: the concrete emit failure rolls back and
answers 500. -/
theorem createTask_realtime_failure_fatal_witness :
    (createTask db0 req0 failHOD 5).db = db0 ∧
    httpStatus (createTask db0 req0 failHOD 5).result = 500 :=
  ⟨((createTask_realtime_failure_fatal db0 req0 failHOD 5).1 (by decide)).1,
   ((createTask_realtime_failure_fatal db0 req0 failHOD 5).1 (by decide)).2.1⟩

/-- C5: for every role, the list endpoint returns exactly the notification
rows whose `recipient_role` equals the requesting role or the sentinel
"all" (a permutation of that filtered set, so no other rows and none
missing), ordered by creation time descending. -/
theorem listForRole_visible_sorted (db : DB) (role : String) :
    (listForRole db role).Perm (db.notifications.filter (visibleTo role)) ∧
    (∀ n ∈ listForRole db role,
      n.recipient_role = role ∨ n.recipient_role = "all") ∧
    List.Pairwise (fun a b => b.created_at ≤ a.created_at)
      (listForRole db role) := by
  refine ⟨List.mergeSort_perm _ _, ?_, ?_⟩
  · intro n hn
    have hmem : n ∈ db.notifications.filter (visibleTo role) :=
      (List.mergeSort_perm _ _).mem_iff.mp hn
    have hv := (List.mem_filter.mp hmem).2
    simp only [visibleTo, Bool.or_eq_true, beq_iff_eq] at hv
    exact hv
  · have htrans : ∀ a b c : Notification,
        decide (b.created_at ≤ a.created_at) = true →
        decide (c.created_at ≤ b.created_at) = true →
        decide (c.created_at ≤ a.created_at) = true := by
      intro a b c h1 h2
      simp only [decide_eq_true_eq] at h1 h2 ⊢
      omega
    have htotal : ∀ a b : Notification,
        (decide (b.created_at ≤ a.created_at) ||
          decide (a.created_at ≤ b.created_at)) = true := by
      intro a b
      simp only [Bool.or_eq_true, decide_eq_true_eq]
      omega
    exact (List.sorted_mergeSort htrans htotal
      (db.notifications.filter (visibleTo role))).imp
        (fun hab => of_decide_eq_true hab)

/-- Witness for C5 on the concrete ledger database. -/
theorem listForRole_visible_sorted_witness :
    (listForRole dbLedger "HOD").Perm
      (dbLedger.notifications.filter (visibleTo "HOD")) ∧
    List.Pairwise (fun a b => b.created_at ≤ a.created_at)
      (listForRole dbLedger "HOD") :=
  ⟨(listForRole_visible_sorted dbLedger "HOD").1,
   (listForRole_visible_sorted dbLedger "HOD").2.2⟩

/-- C6: mark-as-read flips `read` to true exactly when some stored row has
the requested id and is visible to the requesting role (own role or "all");
when no such row exists — whether the id is absent or the row belongs to
another role — the endpoint reports 404 with no row and leaves the database
fully unchanged, so an unauthorized role cannot distinguish the two cases;
rows not matched by the UPDATE are preserved as they were, and matched rows
are preserved with `read` set. -/
theorem markRead_visibility (db : DB) (nid : Nat) (role : String) :
    ((∃ n ∈ db.notifications, matchesForRead nid role n = true) →
      (markRead db nid role).status = 200 ∧
      ∃ m, (markRead db nid role).notification = some m ∧ m.read = true ∧
        m.id = nid ∧ (m.recipient_role = role ∨ m.recipient_role = "all")) ∧
    ((∀ n ∈ db.notifications, matchesForRead nid role n = false) →
      (markRead db nid role).status = 404 ∧
      (markRead db nid role).notification = none ∧
      (markRead db nid role).db = db) ∧
    (∀ n ∈ db.notifications, matchesForRead nid role n = false →
      n ∈ (markRead db nid role).db.notifications) ∧
    (∀ n ∈ db.notifications, matchesForRead nid role n = true →
      setRead n ∈ (markRead db nid role).db.notifications) := by
  refine ⟨?_, ?_, ?_, ?_⟩
  · rintro ⟨n, hn, hm⟩
    have hmem : n ∈ db.notifications.filter (matchesForRead nid role) :=
      List.mem_filter.mpr ⟨hn, hm⟩
    cases hF : db.notifications.filter (matchesForRead nid role) with
    | nil => rw [hF] at hmem; exact absurd hmem (List.not_mem_nil n)
    | cons m ms =>
      have hm0 : m ∈ db.notifications.filter (matchesForRead nid role) := by
        rw [hF]; exact List.mem_cons_self m ms
      have hmm := (List.mem_filter.mp hm0).2
      simp only [matchesForRead, visibleTo, Bool.and_eq_true, Bool.or_eq_true,
        beq_iff_eq] at hmm
      constructor
      · show (if ((db.notifications.filter
            (matchesForRead nid role)).map setRead).isEmpty then 404 else 200)
            = 200
        rw [hF]
        rfl
      · refine ⟨setRead m, ?_, rfl, hmm.1, hmm.2⟩
        show ((db.notifications.filter
          (matchesForRead nid role)).map setRead).head? = some (setRead m)
        rw [hF]
        rfl
  · intro hf
    have hF : db.notifications.filter (matchesForRead nid role) = [] :=
      List.filter_eq_nil_iff.mpr
        (fun a ha hpa => Bool.false_ne_true ((hf a ha).symm.trans hpa))
    have hid : db.notifications.map (applyRead nid role) = db.notifications := by
      refine (List.map_congr_left ?_).trans (List.map_id _)
      intro a ha
      unfold applyRead
      rw [if_neg (fun hpa => Bool.false_ne_true ((hf a ha).symm.trans hpa))]
      rfl
    refine ⟨?_, ?_, ?_⟩
    · show (if ((db.notifications.filter
        (matchesForRead nid role)).map setRead).isEmpty then 404 else 200) = 404
      rw [hF]
      rfl
    · show ((db.notifications.filter
        (matchesForRead nid role)).map setRead).head? = none
      rw [hF]
      rfl
    · show { db with
          notifications := db.notifications.map (applyRead nid role) } = db
      rw [hid]
  · intro n hn hm
    have ha : applyRead nid role n = n := by
      unfold applyRead
      rw [if_neg (fun hpa => Bool.false_ne_true (hm.symm.trans hpa))]
    have h2 := List.mem_map_of_mem (applyRead nid role) hn
    rw [ha] at h2
    exact h2
  · intro n hn hm
    have ha : applyRead nid role n = setRead n := by
      unfold applyRead
      rw [if_pos hm]
    have h2 := List.mem_map_of_mem (applyRead nid role) hn
    rw [ha] at h2
    exact h2

/-- Witness for C6: role HOD can mark its own row read; role PDC asking for
the same HOD-addressed row gets 404 and the ledger is untouched. -/
theorem markRead_visibility_witness :
    (markRead dbLedger 1 "HOD").status = 200 ∧
    (markRead dbLedger 1 "PDC").status = 404 ∧
    (markRead dbLedger 1 "PDC").db = dbLedger :=
  ⟨((markRead_visibility dbLedger 1 "HOD").1 ⟨nHOD, by decide, by decide⟩).1,
   ((markRead_visibility dbLedger 1 "PDC").2.1 (by decide)).1,
   ((markRead_visibility dbLedger 1 "PDC").2.1 (by decide)).2.2⟩

/-- C7 counterexample: clearing for HOD on a ledger with two visible rows
and clearing on an empty ledger delete different numbers of rows (2 versus
0) yet produce byte-identical responses — the constant success body — so
the endpoint does not return the count of deleted rows. -/
theorem clearForRole_returns_count_cex :
    (clearForRole dbLedger "HOD").response =
      (clearForRole db0 "HOD").response ∧
    dbLedger.notifications.countP (visibleTo "HOD") = 2 ∧
    db0.notifications.countP (visibleTo "HOD") = 0 ∧
    (clearForRole dbLedger "HOD").db.notifications.length + 2 =
      dbLedger.notifications.length ∧
    (clearForRole db0 "HOD").db.notifications.length =
      db0.notifications.length := by
  decide

/-- C7 (amended): clear-for-role deletes exactly the notification rows
visible to the requesting role (own-role rows plus "all"-role rows),
leaves every other notification row and the other tables untouched, and
returns a constant success message that does not carry the deleted count. -/
theorem clearForRole_visible_rows (db : DB) (role : String) :
    (clearForRole db role).db.notifications =
      db.notifications.filter (fun n => !(visibleTo role n)) ∧
    (∀ n ∈ db.notifications, visibleTo role n = false →
      n ∈ (clearForRole db role).db.notifications) ∧
    (∀ n ∈ (clearForRole db role).db.notifications, visibleTo role n = false) ∧
    (clearForRole db role).db.parts = db.parts ∧
    (clearForRole db role).db.quality_tasks = db.quality_tasks ∧
    (clearForRole db role).response =
      { success := true, message := "Notifications cleared" } := by
  refine ⟨rfl, ?_, ?_, rfl, rfl, rfl⟩
  · intro n hn hv
    show n ∈ db.notifications.filter (fun n => !(visibleTo role n))
    exact List.mem_filter.mpr ⟨hn, by rw [hv]; rfl⟩
  · intro n hn
    have hv := (List.mem_filter.mp hn).2
    rwa [Bool.not_eq_true'] at hv

/-- Witness for the amended C7 on the concrete ledger database. -/
theorem clearForRole_visible_rows_witness :
    (clearForRole dbLedger "HOD").db.notifications =
      dbLedger.notifications.filter (fun n => !(visibleTo "HOD" n)) ∧
    (clearForRole dbLedger "HOD").response =
      { success := true, message := "Notifications cleared" } :=
  ⟨(clearForRole_visible_rows dbLedger "HOD").1,
   (clearForRole_visible_rows dbLedger "HOD").2.2.2.2.2⟩

/-- C8: a task-creation request whose `partName` is absent or empty is
rejected by the validation guard with HTTP 400 — even when `sapCode` and
`location` are present — before any database work (empty trace, database
unchanged), and the uploaded artifacts are deleted. -/
theorem createTask_missing_partName (db : DB) (req : CreateTaskRequest)
    (ef : String → Bool) (now : Nat) (h : req.partName.isEmpty = true) :
    (createTask db req ef now).result = CreateResult.validationFailed ∧
    httpStatus (createTask db req ef now).result = 400 ∧
    (createTask db req ef now).db = db ∧
    (createTask db req ef now).trace = [] ∧
    (createTask db req ef now).deletedFiles = req.files := by
  rw [createTask_eq_validation db req ef now (by rw [h]; rfl)]
  exact ⟨rfl, rfl, rfl, rfl, rfl⟩

/-- Witness for C8: `partName` empty while `sapCode` and `location` are
non-empty. -/
theorem createTask_missing_partName_witness :
    reqNoName.sapCode.isEmpty = false ∧
    reqNoName.location.isEmpty = false ∧
    (createTask db0 reqNoName noFail 5).result =
      CreateResult.validationFailed ∧
    (createTask db0 reqNoName noFail 5).db = db0 ∧
    (createTask db0 reqNoName noFail 5).trace = [] ∧
    (createTask db0 reqNoName noFail 5).deletedFiles = reqNoName.files :=
  ⟨by decide, by decide,
   (createTask_missing_partName db0 reqNoName noFail 5 (by decide)).1,
   (createTask_missing_partName db0 reqNoName noFail 5 (by decide)).2.2.1,
   (createTask_missing_partName db0 reqNoName noFail 5 (by decide)).2.2.2.1,
   (createTask_missing_partName db0 reqNoName noFail 5 (by decide)).2.2.2.2⟩

/-- C9: in every successful task creation, each emitted realtime payload
carries `id` equal to the created task's id (as does its `task_id` field);
the payload is built from the task and part alone — the id of the persisted
Notification row is never retrieved or included. -/
theorem createTask_emit_payload_uses_task_id (db : DB)
    (req : CreateTaskRequest) (ef : String → Bool) (now : Nat) :
    ∀ t p, (createTask db req ef now).result = CreateResult.success t p →
      ∀ e ∈ emitsOf (createTask db req ef now).trace,
        e.payload.id = t.id ∧ e.payload.task_id = t.id ∧
        e = mkEmitEvent t p e.payload.recipient_role now := by
  intro t p h e he
  obtain ⟨hfind, ht, hfr, hout⟩ := createTask_success_inv db req ef now t p h
  subst ht
  rw [hout, createTaskWithPart_eq_ok db req ef now p hfr] at he
  have e1 : emitsOf
      (([TraceStep.beginTxn, TraceStep.insertTask (txnTask db req now p)] ++
        (txnLoop db req ef now p).steps) ++ [TraceStep.commit]) =
      emitsOf (txnLoop db req ef now p).steps := by
    rw [emitsOf_append, emitsOf_append, emitsOf_pre, emitsOf_commit,
      List.nil_append, List.append_nil]
  have he2 : e ∈ emitsOf
      (([TraceStep.beginTxn, TraceStep.insertTask (txnTask db req now p)] ++
        (txnLoop db req ef now p).steps) ++ [TraceStep.commit]) := he
  have hemits : emitsOf (txnLoop db req ef now p).steps =
      TARGET_ROLES.map
        (fun role => mkEmitEvent (txnTask db req now p) p role now) :=
    notifyLoop_emits_of_ok ef p (txnTask db req now p) now TARGET_ROLES
      db.nextNotificationId hfr
  rw [e1, hemits] at he2
  rcases List.mem_map.mp he2 with ⟨role, _, rfl⟩
  exact ⟨rfl, rfl, rfl⟩

/-- Witness for C9: the HOD event of the concrete scenario carries the
task's id 10, while the persisted HOD notification row has id 20. -/
theorem createTask_emit_payload_uses_task_id_witness :
    (mkEmitEvent task0 part0 "HOD" 5).payload.id = task0.id ∧
    (mkEmitEvent task0 part0 "HOD" 5).payload.task_id = task0.id ∧
    mkNotification 20 task0 part0 "HOD" 5 ∈
      (createTask db0 req0 noFail 5).db.notifications ∧
    (mkNotification 20 task0 part0 "HOD" 5).id ≠
      (mkEmitEvent task0 part0 "HOD" 5).payload.id :=
  ⟨(createTask_emit_payload_uses_task_id db0 req0 noFail 5 task0 part0
      (by decide) (mkEmitEvent task0 part0 "HOD" 5) (by decide)).1,
   (createTask_emit_payload_uses_task_id db0 req0 noFail 5 task0 part0
      (by decide) (mkEmitEvent task0 part0 "HOD" 5) (by decide)).2.1,
   by decide, by decide⟩

/-- C10: mark-as-read is idempotent — after a successful call for a row
visible to the role, repeating the call succeeds again, returns the same
row, and leaves the store exactly as the first call left it. -/
theorem markRead_idempotent (db : DB) (nid : Nat) (role : String)
    (h : (markRead db nid role).status = 200) :
    (markRead (markRead db nid role).db nid role).status = 200 ∧
    (markRead (markRead db nid role).db nid role).notification =
      (markRead db nid role).notification ∧
    (markRead (markRead db nid role).db nid role).db =
      (markRead db nid role).db := by
  have hrows : (((markRead db nid role).db.notifications.filter
      (matchesForRead nid role)).map setRead) =
      ((db.notifications.filter (matchesForRead nid role)).map setRead) := by
    show (((db.notifications.map (applyRead nid role)).filter
      (matchesForRead nid role)).map setRead) = _
    rw [filter_map_applyRead, List.map_map]
    exact List.map_congr_left (fun a _ => setRead_setRead a)
  have hemp : ((db.notifications.filter (matchesForRead nid role)).map setRead)
      ≠ [] := by
    intro hnil
    have h' : (if ((db.notifications.filter
        (matchesForRead nid role)).map setRead).isEmpty then 404 else 200)
        = 200 := h
    rw [hnil] at h'
    exact absurd h' (by decide)
  refine ⟨?_, ?_, ?_⟩
  · show (if (((markRead db nid role).db.notifications.filter
      (matchesForRead nid role)).map setRead).isEmpty then 404 else 200) = 200
    rw [hrows, if_neg (fun hb => hemp (List.isEmpty_iff.mp hb))]
  · show (((markRead db nid role).db.notifications.filter
      (matchesForRead nid role)).map setRead).head? =
      ((db.notifications.filter (matchesForRead nid role)).map setRead).head?
    rw [hrows]
  · have hmapped : (markRead db nid role).db.notifications.map
        (applyRead nid role) = (markRead db nid role).db.notifications :=
      map_applyRead_idem nid role db.notifications
    show { (markRead db nid role).db with
        notifications := (markRead db nid role).db.notifications.map
          (applyRead nid role) } = (markRead db nid role).db
    rw [hmapped]

/-- Witness for C10 on the concrete ledger database. -/
theorem markRead_idempotent_witness :
    (markRead (markRead dbLedger 1 "HOD").db 1 "HOD").status = 200 ∧
    (markRead (markRead dbLedger 1 "HOD").db 1 "HOD").notification =
      (markRead dbLedger 1 "HOD").notification ∧
    (markRead (markRead dbLedger 1 "HOD").db 1 "HOD").db =
      (markRead dbLedger 1 "HOD").db :=
  markRead_idempotent dbLedger 1 "HOD" (by decide)

end DieCare
